import Mathlib

/-!
Verification of the presto-asyncio client (a Python asyncio client for the
Presto/Trino HTTP query protocol) against its natural-language specification.

The development shallowly embeds the relevant Python source:

* `presto/presto_request.py` — the HTTP transport (`PrestoRequest`):
  `is_redirect`, the `post` redirect loop, `get_url`, `raise_response_error`,
  and the `max_attempts` setter that installs (or bypasses) the retry wrapper.
* `presto/presto_query.py` — the query state machine (`PrestoQuery`):
  `execute`, `fetch`, `cancel`, `is_finished`.
* `main.py` — the recursive type decoder `map_to_python_type`.

Python dictionaries are embedded as association lists with Python's
overwrite-or-append assignment semantics; Python exceptions are embedded as an
explicit error type threaded through `Except`; the network is embedded as an
explicit parameter supplying the response to each HTTP request the code makes.
-/

namespace Presto

/-- Python exceptions that the embedded code can raise.  `valueError`,
`typeError`, `keyError`, `indexError`, `attributeError`, `assertionError` and
`invalidOperation` (decimal.InvalidOperation) are builtin exception classes;
`prestoUserError`, `http503Error` and `httpError` come from
`prestodb.exceptions`; `serverConnectionError` and `serverTimeoutError` are the
aiohttp classes listed in `PrestoRequest.HTTP_EXCEPTIONS`; `invalidUrl` is the
error aiohttp/yarl raises when a request is issued against a `None` URL. -/
inductive PyExn where
  | valueError (msg : String)
  | typeError (msg : String)
  | keyError
  | indexError
  | attributeError
  | assertionError
  | invalidOperation
  | prestoUserError (msg : String)
  | http503Error (msg : String)
  | httpError (msg : String)
  | invalidUrl
  | serverConnectionError
  | serverTimeoutError
deriving DecidableEq, Repr

/-! ### Python `dict` with string keys

The stats dictionaries handled by `PrestoQuery` are embedded as association
lists of string pairs.  Dictionaries produced by the code (and the JSON stats
maps it receives) have unique keys; lookup is embedded as
last-binding-wins, which coincides with Python lookup on unique-key lists and
makes `dict.update` compose. -/

/-- Lookup in an embedded dict (last binding wins). -/
def dictGet : List (String × String) → String → Option String
  | [], _ => none
  | p :: d, k =>
    match dictGet d k with
    | some v => some v
    | none => if p.1 = k then some p.2 else none

/-- Python `d[k] = v`: overwrite the binding in place if the key is present,
append it otherwise. -/
def dictSet (d : List (String × String)) (k : String) (v : String) :
    List (String × String) :=
  if d.any (fun p => p.1 = k) then
    d.map (fun p => if p.1 = k then (k, v) else p)
  else d ++ [(k, v)]

/-- Python `d.update(m)`: assign every binding of `m` into `d`, in order. -/
def dictUpdate (d m : List (String × String)) : List (String × String) :=
  m.foldl (fun d p => dictSet d p.1 p.2) d

/-- Strict `Option` alternative, used to state later-binding-wins lookups. -/
def optOr : Option String → Option String → Option String
  | some v, _ => some v
  | none, b => b

/-- The pointwise additive union of a list of dicts, values from later dicts
winning on key collision. -/
def unionLaterWins (ms : List (List (String × String))) (k : String) :
    Option String :=
  ms.foldl (fun acc m => optOr (dictGet m k) acc) none

theorem optOr_none_left (b : Option String) : optOr none b = b := rfl

theorem optOr_assoc (a b c : Option String) :
    optOr (optOr a b) c = optOr a (optOr b c) := by
  cases a <;> cases b <;> rfl

theorem dictGet_cons (p : String × String) (d : List (String × String))
    (k : String) :
    dictGet (p :: d) k =
      optOr (dictGet d k) (if p.1 = k then some p.2 else none) := by
  cases h : dictGet d k <;> simp [dictGet, h, optOr]

theorem dictGet_append (d e : List (String × String)) (k : String) :
    dictGet (d ++ e) k = optOr (dictGet e k) (dictGet d k) := by
  induction d with
  | nil => simp [dictGet, optOr]; cases dictGet e k <;> rfl
  | cons p d ih =>
      rw [List.cons_append, dictGet_cons, dictGet_cons, ih, optOr_assoc]

theorem optOr_none_right (a : Option String) : optOr a none = a := by
  cases a <;> rfl

theorem dictGet_map_overwrite (d : List (String × String)) (k v k' : String) :
    dictGet (d.map (fun p => if p.1 = k then (k, v) else p)) k' =
      if k' = k then (if d.any (fun p => p.1 = k) then some v else none)
      else dictGet d k' := by
  induction d with
  | nil => simp [dictGet]
  | cons p d ih =>
      simp only [List.map_cons, dictGet_cons, ih]
      by_cases hpk : p.1 = k <;> by_cases hk : k' = k
      · subst hk
        cases h : d.any (fun p => p.1 = k') <;>
          simp [h, hpk, optOr, List.any_cons]
      · have hk2 : ¬k = k' := fun h => hk h.symm
        simp [hpk, hk, hk2, dictGet_cons, optOr_none_right]
      · subst hk
        have hd : decide (p.1 = k') = false := by simp [hpk]
        simp [hpk, optOr_none_right, List.any_cons]
        rw [hd, Bool.false_or]
      · simp [hpk, hk, dictGet_cons]

theorem dictGet_dictSet (d : List (String × String)) (k v k' : String) :
    dictGet (dictSet d k v) k' = if k' = k then some v else dictGet d k' := by
  unfold dictSet
  by_cases h : d.any (fun p => p.1 = k)
  · rw [if_pos h, dictGet_map_overwrite, if_pos h]
  · rw [if_neg h, dictGet_append, dictGet_cons]
    by_cases hk : k' = k
    · subst hk
      simp [dictGet, optOr]
    · have hk2 : ¬k = k' := fun hh => hk hh.symm
      simp [dictGet, hk, hk2, optOr]

theorem dictGet_dictUpdate (m d : List (String × String)) (k : String) :
    dictGet (dictUpdate d m) k = optOr (dictGet m k) (dictGet d k) := by
  induction m generalizing d with
  | nil => rfl
  | cons p m ih =>
      have hstep : dictUpdate d (p :: m) = dictUpdate (dictSet d p.1 p.2) m :=
        rfl
      rw [hstep, ih, dictGet_dictSet, dictGet_cons, optOr_assoc]
      by_cases hk : k = p.1
      · subst hk
        simp [optOr]
      · have hk2 : ¬p.1 = k := fun hh => hk hh.symm
        simp [hk, hk2, optOr]

theorem unionLaterWins_shift (ms : List (List (String × String)))
    (a : Option String) (k : String) :
    ms.foldl (fun acc m => optOr (dictGet m k) acc) a =
      optOr (unionLaterWins ms k) a := by
  induction ms generalizing a with
  | nil => cases a <;> rfl
  | cons m ms ih =>
      show ms.foldl (fun acc m => optOr (dictGet m k) acc)
          (optOr (dictGet m k) a) = _
      rw [ih]
      have hrhs : unionLaterWins (m :: ms) k =
          optOr (unionLaterWins ms k) (dictGet m k) := by
        show ms.foldl (fun acc m => optOr (dictGet m k) acc)
            (optOr (dictGet m k) none) = _
        rw [ih, optOr_none_right]
      rw [hrhs, optOr_assoc]

theorem dictGet_foldl_update (ms : List (List (String × String)))
    (d0 : List (String × String)) (k : String) :
    dictGet (ms.foldl (fun d m => dictUpdate d m) d0) k =
      optOr (unionLaterWins ms k) (dictGet d0 k) := by
  induction ms generalizing d0 with
  | nil => rfl
  | cons m ms ih =>
      show dictGet (ms.foldl (fun d m => dictUpdate d m) (dictUpdate d0 m)) k
          = _
      rw [ih, dictGet_dictUpdate]
      have hrhs : unionLaterWins (m :: ms) k =
          optOr (unionLaterWins ms k) (dictGet m k) := by
        show ms.foldl (fun acc m => optOr (dictGet m k) acc)
            (optOr (dictGet m k) none) = _
        rw [unionLaterWins_shift, optOr_none_right]
      rw [hrhs, optOr_assoc]

/-! ### String helpers

Structural (kernel-computable) implementations of the string operations the
source uses: single-character `str.split`, `str.startswith` for one-character
prefixes, digit-string parsing, and case-insensitive comparison. -/

/-- `s.split(c)` for a single-character separator. -/
def splitChar (c : Char) : List Char → List (List Char)
  | [] => [[]]
  | x :: rest =>
    match splitChar c rest with
    | [] => [[x]]
    | g :: gs => if x = c then [] :: g :: gs else (x :: g) :: gs

def strSplitOnChar (s : String) (c : Char) : List String :=
  (splitChar c s.toList).map String.mk

/-- The numeric value of a digit string. -/
def digitsVal (cs : List Char) : Nat :=
  cs.foldl (fun a c => a * 10 + (c.toNat - 48)) 0

/-- `int(s)` on a nonempty all-digit string, `none` otherwise. -/
def strToNat? (s : String) : Option Nat :=
  if s.toList ≠ [] && s.toList.all Char.isDigit then some (digitsVal s.toList)
  else none

/-- `s.startswith(c)` for a one-character prefix. -/
def strHeadIs (s : String) (c : Char) : Bool :=
  match s.toList with
  | [] => false
  | x :: _ => x = c

/-- Case-insensitive string equality. -/
def lowerEq (a b : String) : Bool :=
  a.toList.map Char.toLower == b.toList.map Char.toLower

/-! ### HTTP transport (`presto/presto_request.py`) -/

/-- An awaited aiohttp `ClientResponse`.  `headers` is a case-insensitive
multidict in aiohttp; it is embedded as a pair list with case-insensitive
lookup.  `content` stands for the response body. -/
structure HttpResponse where
  status : Nat
  headers : List (String × String) := []
  content : String := ""
deriving DecidableEq, Repr

/-- Case-insensitive header membership, mirroring aiohttp CIMultiDict
`name in response.headers`. -/
def headerContains (hs : List (String × String)) (name : String) : Bool :=
  hs.any (fun p => lowerEq p.1 name)

/-- Case-insensitive header lookup `response.headers[name]`. -/
def headerGet (hs : List (String × String)) (name : String) : Option String :=
  (hs.find? (fun p => lowerEq p.1 name)).map (fun p => p.2)

/-- `is_redirect` (presto_request.py lines 20-22):
`'location' in http_response.headers and http_response.status in
(301, 302, 303, 307, 308)`. -/
def is_redirect (http_response : HttpResponse) : Bool :=
  headerContains http_response.headers "location" &&
    (http_response.status = 301 || http_response.status = 302 ||
      http_response.status = 303 || http_response.status = 307 ||
      http_response.status = 308)

/-- The value of the local variable `http_response` inside `PrestoRequest.post`.
After the initial awaited `self._post` it is a real response; the reissued
`self._post(url, ...)` on line 326 is **not awaited**, so after a redirect the
variable holds the un-awaited coroutine / request context manager instead. -/
inductive PostVar where
  | resp (r : HttpResponse)
  | unawaitedPost (url : String)
deriving DecidableEq, Repr

/-- Evaluating `http_response is not None and is_redirect(http_response)` on
the loop variable.  On an un-awaited coroutine the attribute access
`http_response.headers` inside `is_redirect` raises `AttributeError`. -/
def loopCondition : PostVar → Except PyExn Bool
  | .resp r => .ok (is_redirect r)
  | .unawaitedPost _ => .error .attributeError

/-- Evaluating `http_response.headers["Location"]` on the loop variable. -/
def locationHeader : PostVar → Except PyExn String
  | .resp r =>
    match headerGet r.headers "Location" with
    | some v => .ok v
    | none => .error .keyError
  | .unawaitedPost _ => .error .attributeError

/-- The `while` redirect loop of `PrestoRequest.post`
(presto_request.py lines 321-333), for a configured redirect handler `handle`
(`self._redirect_handler.handle`).  Each iteration checks
`http_response is not None and is_redirect(http_response)`, resolves
`url = handle(location)`, and executes
`http_response = self._post(url, data=data, headers=http_headers, ...)`
— with no `await`, so the variable becomes the un-awaited call.  `fuel` bounds
the number of iterations modelled; the loop below never consumes more than two
iterations before returning or raising. -/
def postLoop (handle : String → String) : Nat → PostVar → Except PyExn PostVar
  | 0, _ => .error .attributeError
  | fuel + 1, x => do
    let cond ← loopCondition x
    if cond then do
      let location ← locationHeader x
      let url := handle location
      postLoop handle fuel (.unawaitedPost url)
    else
      .ok x

/-- `PrestoRequest.post` (presto_request.py lines 308-334) after the initial
awaited `self._post` produced `first`.  When no redirect handler is configured
the loop is skipped (`allow_redirects=True` is passed instead and the HTTP
stack follows redirects itself); with a handler the loop above runs. -/
def post (redirect_handler : Option (String → String)) (fuel : Nat)
    (first : HttpResponse) : Except PyExn PostVar :=
  match redirect_handler with
  | none => .ok (.resp first)
  | some handle => postLoop handle fuel (.resp first)

/-- `get_url` (presto_request.py lines 294-296):
`f"{self._http_scheme}://{self._host}:{self._port}{path}"`. -/
structure ReqConfig where
  http_scheme : String
  host : String
  port : Nat
deriving DecidableEq, Repr

def get_url (c : ReqConfig) (path : String) : String :=
  c.http_scheme ++ "://" ++ c.host ++ ":" ++ toString c.port ++ path

/-- `raise_response_error` (presto_request.py lines 356-366). -/
def raise_response_error (http_response : HttpResponse) : PyExn :=
  if http_response.status = 503 then
    .http503Error "error 503: service unavailable"
  else
    .httpError ("error " ++ toString http_response.status ++
      (if http_response.content ≠ "" then ": " ++ http_response.content
       else ""))

/-! ### Retry layer (`PrestoRequest.max_attempts` setter, lines 271-292)

One HTTP attempt either raises an exception or yields a response.  A call
site is embedded as a stream `attempts : Nat → AttemptOutcome` giving the
outcome of each successive attempt; the plain session methods
(`self._http_session.get/post/delete`) perform exactly one attempt. -/

inductive AttemptOutcome where
  | raised (e : PyExn)
  | response (r : HttpResponse)
deriving DecidableEq, Repr

/-- `HTTP_EXCEPTIONS` (presto_request.py lines 138-141): the transient
transport-level exceptions handed to the retry decorator
(`aiohttp.ServerConnectionError`, `aiohttp.ServerTimeoutError`). -/
def HTTP_EXCEPTIONS : List PyExn :=
  [.serverConnectionError, .serverTimeoutError]

/-- Whether the retry decorator retries this outcome: the raised exception is
one of the configured `exceptions`, or the condition
`getattr(response, "status", None) == 503` holds (lines 283-287). -/
def shouldRetryOutcome : AttemptOutcome → Bool
  | .raised e => HTTP_EXCEPTIONS.contains e
  | .response r => r.status = 503

/-- Modelled from the spec: `exceptions.retry_with` lives in the external
`prestodb` package, not under src/.  Per the spec, the decorated call is
attempted up to `max_attempts` times, retrying while the outcome is a
transient exception or a 503 response; the final attempt's outcome is
returned (or its exception propagates). `remaining` is the number of attempts
still allowed starting at index `i`. -/
def retryLoop (attempts : Nat → AttemptOutcome) : Nat → Nat → AttemptOutcome
  | i, 0 => attempts i
  | i, 1 => attempts i
  | i, remaining + 2 =>
    let o := attempts i
    if shouldRetryOutcome o then retryLoop attempts (i + 1) (remaining + 1)
    else o

/-- A plain `self._http_session.get/post/delete` call: one HTTP attempt. -/
def sessionCall (attempts : Nat → AttemptOutcome) : AttemptOutcome :=
  attempts 0

/-- The `max_attempts` setter (presto_request.py lines 271-292): with
`value == 1` the transport methods are the plain session methods (no retry
wrapper); otherwise they are wrapped by `retry_with` with `HTTP_EXCEPTIONS`
and the 503 condition. -/
def set_max_attempts (value : Nat) (attempts : Nat → AttemptOutcome) :
    AttemptOutcome :=
  if value = 1 then sessionCall attempts
  else retryLoop attempts 0 value

/-! ### Query state machine (`presto/presto_query.py`) -/

/-- `PrestoStatus` (constructed in `PrestoRequest.process`,
presto_request.py lines 393-401): `id=response["id"]`,
`stats=response["stats"]`, `warnings=response.get("warnings", [])`,
`info_uri=response["infoUri"]`, `next_uri=response.get("nextUri")`,
`rows=response.get("data", [])`, `columns=response.get("columns")`.
Row contents and warning/column payloads are opaque to the query layer and
are embedded as lists of integers resp. strings. -/
structure PrestoStatus where
  id : String
  stats : List (String × String)
  warnings : List String := []
  info_uri : String := ""
  next_uri : Option String := none
  rows : List (List Int) := []
  columns : Option (List String) := none
deriving DecidableEq, Repr

/-- The mutable state of a `PrestoQuery` together with the `_next_uri` of its
`PrestoRequest` (set by `process`, presto_request.py line 391, and read back
through the `next_uri` property).  Fields and defaults follow
`PrestoQuery.__init__` (presto_query.py lines 17-36) and the
`next_uri` parameter default of `PrestoRequest.__init__`. -/
structure QState where
  query_id : Option String := none
  stats : List (String × String) := []
  warnings : List String := []
  columns : Option (List String) := none
  finished : Bool := false
  cancelled : Bool := false
  sql : String := ""
  next_uri : Option String := none
  result : List (List Int) := []
deriving DecidableEq, Repr

/-- A fresh `PrestoQuery(request, sql)` over a fresh request
(`next_uri=None`). -/
def initialQuery (sql : String) : QState := { sql := sql }

/-- `is_finished` (presto_query.py lines 109-111). -/
def is_finished (q : QState) : Bool := q.finished

/-- Python truthiness of an optional string (`if self._request.next_uri:`):
`None` and the empty string are falsy. -/
def optTruthy : Option String → Bool
  | none => false
  | some s => s ≠ ""

/-- Python truthiness of `status.columns` (`if status.columns:`): `None` and
the empty list are falsy. -/
def colsTruthy : Option (List String) → Bool
  | none => false
  | some l => l ≠ []

/-- The state mutations of `PrestoQuery.execute` after `process` returned
`status` (presto_query.py lines 67-77, plus `process` storing
`response.get("nextUri")` into the request at presto_request.py line 391):
assign `query_id`, adopt truthy `columns`, update stats with
`{"queryId": self.query_id}` then `status.stats`, replace `warnings`, set
`finished` when `status.next_uri is None`, store `status.rows` as the
result. -/
def executeUpdate (q : QState) (status : PrestoStatus) : QState :=
  let q := { q with next_uri := status.next_uri }
  let q := { q with query_id := some status.id }
  let q := if colsTruthy status.columns then { q with columns := status.columns }
           else q
  let q := { q with stats := dictUpdate q.stats [("queryId", status.id)] }
  let q := { q with stats := dictUpdate q.stats status.stats }
  let q := { q with warnings := status.warnings }
  let q := if status.next_uri.isNone then { q with finished := true } else q
  { q with result := status.rows }

/-- The state mutations of `PrestoQuery.fetch` after `process` returned
`status` (presto_query.py lines 85-90, plus presto_request.py line 391):
adopt truthy `columns`, update stats with `status.stats`, set `finished`
when `status.next_uri is None`.  `query_id`, `warnings` and `result` are
not touched. -/
def fetchUpdate (q : QState) (status : PrestoStatus) : QState :=
  let q := { q with next_uri := status.next_uri }
  let q := if colsTruthy status.columns then { q with columns := status.columns }
           else q
  let q := { q with stats := dictUpdate q.stats status.stats }
  if status.next_uri.isNone then { q with finished := true } else q

/-- An HTTP request issued by the query layer. -/
inductive HttpReq where
  | post (sql : String)
  | get (uri : String)
deriving DecidableEq, Repr

/-- `PrestoQuery.execute` (presto_query.py lines 54-78).  `srv req` models
the combined effect of awaiting the transport call for `req` and running
`PrestoRequest.process` on its response: either an exception (transport
failure, non-ok response, engine error field) or a `PrestoStatus`.  The
credential-refresh branch (lines 60-61) is inactive under the default
configuration (`credentials is None`) and is omitted. -/
def execute (srv : HttpReq → Except PyExn PrestoStatus) (q : QState) :
    Except PyExn (QState × List (List Int)) :=
  if q.cancelled then .error (.prestoUserError "Query has been cancelled")
  else do
    let status ← srv (if optTruthy q.next_uri then .get (q.next_uri.getD "")
                      else .post q.sql)
    let q := executeUpdate q status
    .ok (q, q.result)

/-- `PrestoQuery.fetch` (presto_query.py lines 80-91).  No finished/cancelled
check is performed; the current `next_uri` is passed straight to
`self._request.get`, which rejects a `None` URL at the HTTP layer. -/
def fetch (srv : HttpReq → Except PyExn PrestoStatus) (q : QState) :
    Except PyExn (QState × List (List Int)) :=
  match q.next_uri with
  | none => .error .invalidUrl
  | some u => do
    let status ← srv (.get u)
    .ok (fetchUpdate q status, status.rows)

/-- Events observable during `PrestoQuery.cancel`, in program order. -/
inductive CancelEvent where
  | setCancelled
  | deleteIssued (url : String)
deriving DecidableEq, Repr

/-- `PrestoQuery.cancel` (presto_query.py lines 93-107): no-op when
`self.query_id is None or self.is_finished()`; otherwise set
`self._cancelled = True` (line 99), build the URL
`self._request.get_url("/v1/presto/{}".format(self.query_id))` (line 100),
issue the DELETE (line 102, its response supplied as `deleteReply`), return
on status 204, else `raise_response_error`.  The returned event list records
the side effects in program order. -/
def cancel (cfg : ReqConfig) (deleteReply : HttpResponse) (q : QState) :
    QState × List CancelEvent × Except PyExn Unit :=
  match q.query_id with
  | none => (q, [], .ok ())
  | some qid =>
    if is_finished q then (q, [], .ok ())
    else
      let q := { q with cancelled := true }
      let url := get_url cfg ("/v1/presto/" ++ qid)
      let events := [CancelEvent.setCancelled, CancelEvent.deleteIssued url]
      if deleteReply.status = 204 then (q, events, .ok ())
      else (q, events, .error (raise_response_error deleteReply))

/-- The driver loop of `main.py` (`while not query.is_finished(): await
query.fetch()`), with the reply to the i-th `fetch` scripted by the i-th
list element. -/
def runFetches (q : QState) : List PrestoStatus → Except PyExn QState
  | [] => .ok q
  | s :: rest =>
    if is_finished q then .ok q
    else do
      let (q, _) ← fetch (fun _ => .ok s) q
      runFetches q rest

/-- One `execute` (replied to with `s1`) followed by the `main.py` fetch loop
(replied to with `rest`), starting from a fresh query. -/
def runQuery (sql : String) (s1 : PrestoStatus) (rest : List PrestoStatus) :
    Except PyExn QState := do
  let (q, _) ← execute (fun _ => .ok s1) (initialQuery sql)
  runFetches q rest

/-- A legal scripted reply sequence: every status except the last carries a
(truthy) continuation URI and the last carries none, so the `main.py` loop
performs exactly one fetch per remaining status and then stops. -/
inductive LegalRun : List PrestoStatus → Prop where
  | last (s : PrestoStatus) : s.next_uri = none → LegalRun [s]
  | cons (s : PrestoStatus) (rest : List PrestoStatus) :
      optTruthy s.next_uri = true → LegalRun rest → LegalRun (s :: rest)

/-! ### Type decoder (`main.py`, `map_to_python_type`)

Wire values and decoded results are embedded in a single dynamic value type
`PyV`: JSON-ish inputs use the `pynone/pybool/pyint/pyfloat/pystr/pylist/
pydict` constructors, decoded outputs additionally use
`pytuple/pydecimal/pydate/pytime/pydatetime` and the non-finite float
sentinels.  The type descriptors (`data_type` arguments) are themselves `PyV`
dictionaries, exactly as in the Python source, so that the source's dictionary
subscripting — including its failure modes — carries over unchanged. -/

inductive TzRep where
  | offsetMinutes (m : Int)
  | named (zone : String)
deriving DecidableEq, Repr

inductive PyV where
  | pynone
  | pybool (b : Bool)
  | pyint (n : Int)
  | pyfloat (lit : String)
  | pyinf
  | pyneginf
  | pynan
  | pystr (s : String)
  | pylist (xs : List PyV)
  | pytuple (xs : List PyV)
  | pydict (kvs : List (PyV × PyV))
  | pydecimal (lit : String)
  | pydate (y m d : Nat)
  | pytime (h mi s us : Nat) (tz : Option TzRep)
  | pydatetime (y mo d h mi s us : Nat) (tz : Option TzRep)

/-- `float("inf")`, `float("-inf")`, `float("nan")` (main.py lines 20-22). -/
def INF : PyV := .pyinf
def NEGATIVE_INF : PyV := .pyneginf
def NAN : PyV := .pynan

mutual
/-- Python `==` on embedded values.  Faithful on everything the decoder
compares: in particular `NaN == NaN` is `False`.  (Python's order-insensitive
dict equality and numeric cross-type equality are embedded structurally; the
decoder only ever compares scalars.) -/
def pyvBeq : PyV → PyV → Bool
  | .pynone, .pynone => true
  | .pybool a, .pybool b => a == b
  | .pyint a, .pyint b => a == b
  | .pyfloat a, .pyfloat b => a == b
  | .pyinf, .pyinf => true
  | .pyneginf, .pyneginf => true
  | .pynan, .pynan => false
  | .pystr a, .pystr b => a == b
  | .pylist a, .pylist b => pyvBeqList a b
  | .pytuple a, .pytuple b => pyvBeqList a b
  | .pydict a, .pydict b => pyvBeqPairs a b
  | .pydecimal a, .pydecimal b => a == b
  | .pydate a b c, .pydate x y z => a == x && b == y && c == z
  | .pytime a b c d tz, .pytime x y z w tz2 =>
    a == x && b == y && c == z && d == w && tz == tz2
  | .pydatetime a b c d e f g tz, .pydatetime r s t u v w x tz2 =>
    a == r && b == s && c == t && d == u && e == v && f == w && g == x &&
      tz == tz2
  | _, _ => false
def pyvBeqList : List PyV → List PyV → Bool
  | [], [] => true
  | a :: moreA, b :: moreB => pyvBeq a b && pyvBeqList moreA moreB
  | _, _ => false
def pyvBeqPairs : List (PyV × PyV) → List (PyV × PyV) → Bool
  | [], [] => true
  | (k, v) :: moreA, (k2, v2) :: moreB =>
    pyvBeq k k2 && pyvBeq v v2 && pyvBeqPairs moreA moreB
  | _, _ => false
end

mutual
/-- Python `str()`/f-string rendering of an embedded value (used only to build
the decoder's error message). -/
def pyStr : PyV → String
  | .pynone => "None"
  | .pybool b => if b then "True" else "False"
  | .pyint n => toString n
  | .pyfloat lit => lit
  | .pyinf => "inf"
  | .pyneginf => "-inf"
  | .pynan => "nan"
  | .pystr s => s
  | .pylist xs => "[" ++ pyStrJoin xs ++ "]"
  | .pytuple xs => "(" ++ pyStrJoin xs ++ ")"
  | .pydict kvs => "\x7b" ++ pyStrPairs kvs ++ "\x7d"
  | .pydecimal lit => lit
  | .pydate y m d => toString y ++ "-" ++ toString m ++ "-" ++ toString d
  | .pytime h mi s us _ =>
    toString h ++ ":" ++ toString mi ++ ":" ++ toString s ++ "." ++ toString us
  | .pydatetime y mo d h mi s us _ =>
    toString y ++ "-" ++ toString mo ++ "-" ++ toString d ++ " " ++
      toString h ++ ":" ++ toString mi ++ ":" ++ toString s ++ "." ++
      toString us
def pyStrJoin : List PyV → String
  | [] => ""
  | [x] => pyStr x
  | x :: y :: xs => pyStr x ++ ", " ++ pyStrJoin (y :: xs)
def pyStrPairs : List (PyV × PyV) → String
  | [] => ""
  | [(k, v)] => pyStr k ++ ": " ++ pyStr v
  | (k, v) :: q :: kvs => pyStr k ++ ": " ++ pyStr v ++ ", " ++ pyStrPairs (q :: kvs)
end

/-- Python dict lookup by key (keys compared with `==`). -/
def pyvDictFind (kvs : List (PyV × PyV)) (key : PyV) : Option PyV :=
  (kvs.find? (fun p => pyvBeq p.1 key)).map (fun p => p.2)

/-- Python `d[k]` for a string key `k`: dict lookup (raising `KeyError` when
absent), `TypeError` on non-dicts. -/
def pySubscript (d : PyV) (k : String) : Except PyExn PyV :=
  match d with
  | .pydict kvs =>
    match pyvDictFind kvs (.pystr k) with
    | some v => .ok v
    | none => .error .keyError
  | _ => .error (.typeError "object is not subscriptable")

/-- Python `d[i]` for an integer index: list indexing (raising `IndexError`
out of range), dict lookup of the integer key, `TypeError` otherwise. -/
def pyIndex (d : PyV) (i : Nat) : Except PyExn PyV :=
  match d with
  | .pylist xs =>
    match xs.get? i with
    | some x => .ok x
    | none => .error .indexError
  | .pydict kvs =>
    match pyvDictFind kvs (.pyint i) with
    | some v => .ok v
    | none => .error .keyError
  | _ => .error (.typeError "object is not subscriptable")

/-- Python iteration over a value (`zip(value, ...)`, `for key in value`):
lists and tuples yield their elements, dicts their keys. -/
def pyIterate (d : PyV) : Except PyExn (List PyV) :=
  match d with
  | .pylist xs => .ok xs
  | .pytuple xs => .ok xs
  | .pydict kvs => .ok (kvs.map (fun p => p.1))
  | _ => .error (.typeError "object is not iterable")

/-- Substring test (`needle in hay` for strings). -/
def strContains (hay needle : String) : Bool :=
  hay.toList.tails.any (fun t => needle.toList.isPrefixOf t)

/-- Python `needle in hay` where `hay` is a dynamic value: substring test on
strings, membership on lists/tuples, key membership on dicts, `TypeError`
otherwise. -/
def pyInStr (needle : String) (hay : PyV) : Except PyExn Bool :=
  match hay with
  | .pystr s => .ok (strContains s needle)
  | .pylist xs => .ok (xs.any (fun x => pyvBeq x (.pystr needle)))
  | .pytuple xs => .ok (xs.any (fun x => pyvBeq x (.pystr needle)))
  | .pydict kvs => .ok (kvs.any (fun p => pyvBeq p.1 (.pystr needle)))
  | _ => .error (.typeError "argument is not iterable")

/-! Format-specific validating parsers standing in for `datetime.strptime`
with the fixed format strings used by the decoder, for `Decimal(...)`, and
for the one regular expression the decoder uses.  Their exact acceptance
sets abbreviate CPython's (e.g. day-of-month range is not cross-checked
against the month), but their error behaviour — `ValueError` from `strptime`
on a non-matching string, builtin `TypeError` on a non-string argument,
`decimal.InvalidOperation` on a bad decimal literal — follows Python. -/

/-- `strptime(s, "%Y-%m-%d")`. -/
def parseDateStr (s : String) : Option (Nat × Nat × Nat) :=
  match strSplitOnChar s '-' with
  | [ys, ms, ds] =>
    match strToNat? ys, strToNat? ms, strToNat? ds with
    | some y, some m, some d =>
      if 1 ≤ m && m ≤ 12 && 1 ≤ d && d ≤ 31 then some (y, m, d) else none
    | _, _, _ => none
  | _ => none

/-- `strptime(s, "%H:%M:%S.%f")` (time part). -/
def parseTimeStr (s : String) : Option (Nat × Nat × Nat × Nat) :=
  match strSplitOnChar s ':' with
  | [hs, ms, rest] =>
    match strSplitOnChar rest '.' with
    | [ss, fs] =>
      match strToNat? hs, strToNat? ms, strToNat? ss, strToNat? fs with
      | some h, some m, some sec, some f =>
        if h < 24 && m < 60 && sec < 60 && 1 ≤ fs.toList.length &&
            fs.toList.length ≤ 6 then
          some (h, m, sec, f * 10 ^ (6 - fs.toList.length))
        else none
      | _, _, _, _ => none
    | _ => none
  | _ => none

/-- `strptime(s, "%Y-%m-%d %H:%M:%S.%f")`. -/
def parseDatetimeStr (s : String) :
    Option (Nat × Nat × Nat × Nat × Nat × Nat × Nat) :=
  match strSplitOnChar s ' ' with
  | [ds, ts] =>
    match parseDateStr ds, parseTimeStr ts with
    | some (y, mo, d), some (h, mi, sec, us) => some (y, mo, d, h, mi, sec, us)
    | _, _ => none
  | _ => none

/-- A `%z` numeric UTC offset (`+HH:MM`, `-HH:MM`, `+HHMM`, `-HHMM`),
in signed minutes. -/
def parseOffsetStr (s : String) : Option Int :=
  let sign : Option Bool :=
    if strHeadIs s '+' then some false
    else if strHeadIs s '-' then some true else none
  match sign with
  | none => none
  | some neg =>
    let body := String.mk (s.toList.drop 1)
    let comps :=
      match strSplitOnChar body ':' with
      | [hs, ms] => some (hs, ms)
      | [hm] =>
        if hm.toList.length = 4 then
          some (String.mk (hm.toList.take 2), String.mk (hm.toList.drop 2))
        else none
      | _ => none
    match comps with
    | some (hs, ms) =>
      match strToNat? hs, strToNat? ms with
      | some h, some m =>
        if hs.toList.length = 2 && ms.toList.length = 2 && h < 24 && m < 60 then
          some ((if neg then -1 else 1) * (h * 60 + m))
        else none
      | _, _ => none
    | none => none

/-- `strptime(s, "%Y-%m-%d %H:%M:%S.%f %z")`. -/
def parseDatetimeTzStr (s : String) :
    Option (Nat × Nat × Nat × Nat × Nat × Nat × Nat × Int) :=
  match strSplitOnChar s ' ' with
  | [ds, ts, offs] =>
    match parseDateStr ds, parseTimeStr ts, parseOffsetStr offs with
    | some (y, mo, d), some (h, mi, sec, us), some off =>
      some (y, mo, d, h, mi, sec, us, off)
    | _, _, _ => none
  | _ => none

/-- `re.match(r'^(.*)([\+\-])(\d{2}):(\d{2})$', s)`: the captured prefix,
whether the sign is `-`, and the two two-digit groups. -/
def timeTzMatch (s : String) : Option (String × Bool × Nat × Nat) :=
  let cs := s.toList
  let n := cs.length
  if n < 6 then none
  else
    match cs.drop (n - 6) with
    | [sg, h1, h2, col, m1, m2] =>
      if (sg = '+' || sg = '-') && h1.isDigit && h2.isDigit && col = ':' &&
          m1.isDigit && m2.isDigit then
        some (String.mk (cs.take (n - 6)), sg = '-',
          digitsVal [h1, h2], digitsVal [m1, m2])
      else none
    | _ => none

/-- A simplified `Decimal` literal validator (sign, digits, optional point;
exponent forms elided). -/
def decimalLitOk (s : String) : Bool :=
  let body :=
    if strHeadIs s '-' || strHeadIs s '+' then String.mk (s.toList.drop 1)
    else s
  match strSplitOnChar body '.' with
  | [a] => (strToNat? a).isSome
  | [a, b] => (strToNat? (a ++ b)).isSome
  | _ => false

/-- `datetime.strptime(value, "%Y-%m-%d")` on a dynamic argument: a non-str
argument raises builtin `TypeError`, a non-matching string `ValueError`. -/
def strptimeDate (v : PyV) : Except PyExn (Nat × Nat × Nat) :=
  match v with
  | .pystr s =>
    match parseDateStr s with
    | some ymd => .ok ymd
    | none =>
      .error (.valueError ("time data " ++ s ++
        " does not match format %Y-%m-%d"))
  | _ => .error (.typeError "strptime() argument must be str")

/-- `datetime.strptime(value, "%H:%M:%S.%f")`. -/
def strptimeTime (v : PyV) : Except PyExn (Nat × Nat × Nat × Nat) :=
  match v with
  | .pystr s =>
    match parseTimeStr s with
    | some t => .ok t
    | none =>
      .error (.valueError ("time data " ++ s ++
        " does not match format %H:%M:%S.%f"))
  | _ => .error (.typeError "strptime() argument must be str")

/-- `datetime.strptime(value, "%Y-%m-%d %H:%M:%S.%f")`. -/
def strptimeDatetime (v : PyV) :
    Except PyExn (Nat × Nat × Nat × Nat × Nat × Nat × Nat) :=
  match v with
  | .pystr s =>
    match parseDatetimeStr s with
    | some t => .ok t
    | none =>
      .error (.valueError ("time data " ++ s ++
        " does not match format %Y-%m-%d %H:%M:%S.%f"))
  | _ => .error (.typeError "strptime() argument must be str")

/-- `Decimal(value)` (main.py line 137): a bad literal raises
`decimal.InvalidOperation` — which is *not* a `ValueError`, so it escapes the
decoder's `except ValueError` handler. -/
def pyDecimal (v : PyV) : Except PyExn PyV :=
  match v with
  | .pystr s =>
    if decimalLitOk s then .ok (.pydecimal s) else .error .invalidOperation
  | .pyint n => .ok (.pydecimal (toString n))
  | .pyfloat lit => .ok (.pydecimal lit)
  | _ => .error (.typeError "conversion to Decimal is not supported")

/-- The `timestamp with time zone` branch (main.py lines 148-152):
`dt, tz = value.rsplit(' ', 1)` (AttributeError on non-str, ValueError when
there is no space to split on), then either a full `%z` parse when the zone
starts with `+`/`-`, or a naive parse with `pytz.timezone(tz)` attached (the
zone-name database membership check of pytz is elided: any name is
accepted). -/
def rsplitOnce (s : String) (c : Char) : Option (String × String) :=
  let cs := s.toList
  match cs.reverse.findIdx? (fun x => x = c) with
  | none => none
  | some j =>
    let i := cs.length - 1 - j
    some (String.mk (cs.take i), String.mk (cs.drop (i + 1)))

def timestampWithTz (v : PyV) : Except PyExn PyV :=
  match v with
  | .pystr s =>
    match rsplitOnce s ' ' with
    | none => .error (.valueError "not enough values to unpack (expected 2, got 1)")
    | some (dt, tz) =>
      if strHeadIs tz '+' || strHeadIs tz '-' then
        match parseDatetimeTzStr s with
        | some (y, mo, d, h, mi, sec, us, off) =>
          .ok (.pydatetime y mo d h mi sec us (some (.offsetMinutes off)))
        | none =>
          .error (.valueError ("time data " ++ s ++
            " does not match format %Y-%m-%d %H:%M:%S.%f %z"))
      else
        match parseDatetimeStr dt with
        | some (y, mo, d, h, mi, sec, us) =>
          .ok (.pydatetime y mo d h mi sec us (some (.named tz)))
        | none =>
          .error (.valueError ("time data " ++ dt ++
            " does not match format %Y-%m-%d %H:%M:%S.%f"))
  | _ => .error .attributeError

/-- The `time with time zone` branch (main.py lines 155-163): a value not
matching the regular expression fails the `assert matches is not None` with
`AssertionError` — which is *not* a `ValueError`, so it escapes the decoder's
handler; `re.match` itself raises `TypeError` on a non-string. -/
def timeWithTz (v : PyV) : Except PyExn PyV :=
  match v with
  | .pystr s =>
    match timeTzMatch s with
    | none => .error .assertionError
    | some (g1, neg, hh, mm) =>
      match parseTimeStr g1 with
      | some (h, mi, sec, us) =>
        let off : Int := (if neg then -1 else 1) * (hh * 60 + mm)
        .ok (.pytime h mi sec us (some (.offsetMinutes off)))
      | none =>
        .error (.valueError ("time data " ++ g1 ++
          " does not match format %H:%M:%S.%f"))
  | _ => .error (.typeError "expected string or bytes-like object")

/-- The scalar `elif` chain of `map_to_python_type` (main.py lines 136-167),
reached when the value is neither a list nor a dict: `"decimal" in raw_type`,
`raw_type == "double"` (with the `Infinity`/`-Infinity`/`NaN` sentinels),
`raw_type == "date"`, `raw_type == "timestamp with time zone"`,
`"timestamp" in raw_type`, `"time with time zone" in raw_type`,
`"time" in raw_type`, else pass the value through unchanged. -/
def scalarConvert (value rawTypeV : PyV) : Except PyExn PyV := do
  let isDec ← pyInStr "decimal" rawTypeV
  if isDec then pyDecimal value
  else if pyvBeq rawTypeV (.pystr "double") then
    if pyvBeq value (.pystr "Infinity") then .ok INF
    else if pyvBeq value (.pystr "-Infinity") then .ok NEGATIVE_INF
    else if pyvBeq value (.pystr "NaN") then .ok NAN
    else .ok value
  else if pyvBeq rawTypeV (.pystr "date") then do
    let (y, m, d) ← strptimeDate value
    .ok (.pydate y m d)
  else if pyvBeq rawTypeV (.pystr "timestamp with time zone") then
    timestampWithTz value
  else do
    let isTs ← pyInStr "timestamp" rawTypeV
    if isTs then do
      let (y, mo, d, h, mi, sec, us) ← strptimeDatetime value
      .ok (.pydatetime y mo d h mi sec us none)
    else do
      let isTwTz ← pyInStr "time with time zone" rawTypeV
      if isTwTz then timeWithTz value
      else do
        let isTime ← pyInStr "time" rawTypeV
        if isTime then do
          let (h, mi, sec, us) ← strptimeTime value
          .ok (.pytime h mi sec us none)
        else .ok value

/-- The decode error message (main.py line 169):
`f"Could not convert '{value}' into the associated python type for
'{raw_type}'"`. -/
def errMsg (value rawTypeV : PyV) : String :=
  "Could not convert \x27" ++ pyStr value ++
    "\x27 into the associated python type for \x27" ++ pyStr rawTypeV ++ "\x27"

/-- The `try/except ValueError` wrapper (main.py lines 110, 168-170): a
`ValueError` escaping the conversion body is re-raised as a `TypeError`
carrying `errMsg`; every other exception — and every success — passes
through. -/
def catchValueError (value rawTypeV : PyV) :
    Except PyExn PyV → Except PyExn PyV
  | .error (.valueError _) => .error (.typeError (errMsg value rawTypeV))
  | r => r

/-- Python `d[k] = v` on a `PyV`-keyed dict (keys compared with `==`). -/
def pyvDictSet (kvs : List (PyV × PyV)) (k v : PyV) : List (PyV × PyV) :=
  if kvs.any (fun p => pyvBeq p.1 k) then
    kvs.map (fun p => if pyvBeq p.1 k then (k, v) else p)
  else kvs ++ [(k, v)]

/-- Materializing a dict comprehension: insert the produced pairs in order,
later equal keys overwriting earlier ones. -/
def buildPyDict (ps : List (PyV × PyV)) : List (PyV × PyV) :=
  ps.foldl (fun d p => pyvDictSet d p.1 p.2) []


/-- `data_type["typeSignature"]["arguments"][0]["value"]` for the array
branch (main.py lines 113-115). -/
def arrayElemType (ts : PyV) : Except PyExn PyV := do
  let args ← pySubscript ts "arguments"
  let arg0 ← pyIndex args 0
  pySubscript arg0 "value"

/-- `arguments[0]["value"]` and `arguments[1]["value"]` for the map branch
(main.py lines 125-130), evaluated in source order. -/
def mapKVTypes (ts : PyV) : Except PyExn (PyV × PyV) := do
  let args ← pySubscript ts "arguments"
  let arg0 ← pyIndex args 0
  let kt ← pySubscript arg0 "value"
  let arg1 ← pyIndex args 1
  let vt ← pySubscript arg1 "value"
  .ok (kt, vt)

/-- `raw_type = data_type["typeSignature"]["rawType"]` (main.py line 108,
evaluated outside the `try`), returning the typeSignature dict and the raw
type value. -/
def typeSigAndRaw (data_type : PyV) : Except PyExn (PyV × PyV) := do
  let ts ← pySubscript data_type "typeSignature"
  let rawTypeV ← pySubscript ts "rawType"
  .ok (ts, rawTypeV)

mutual
/-- `map_to_python_type` (main.py lines 102-170).  `None` values return
`None` before the type descriptor is touched (lines 105-106);
`raw_type = data_type["typeSignature"]["rawType"]` is evaluated *outside*
the `try` (line 108); the `try` body dispatches on the runtime type of the
value — lists (array/row handling, any other rawType passed through), dicts
(map handling, the argument raw types read before iterating), then the
scalar `elif` chain — and `except ValueError` re-raises as a `TypeError`
carrying the offending value and declared raw type.

Note the asymmetry faithful to the source: the array branch wraps
`arguments[0]["value"]` back into `{"typeSignature": ...}` (lines 113-115)
before recursing, while the row branch (lines 118-122) passes `arg["value"]`
*unwrapped* as the recursive `data_type`, so the recursive call's
`data_type["typeSignature"]` lookup raises `KeyError` for any non-null row
element. -/
def map_to_python_type (value data_type : PyV) : Except PyExn PyV :=
  match value with
  | .pynone => .ok .pynone
  | .pylist xs =>
    match typeSigAndRaw data_type with
    | .error e => .error e
    | .ok (ts, rawTypeV) =>
      catchValueError (.pylist xs) rawTypeV
        (if pyvBeq rawTypeV (.pystr "array") then
           match arrayElemType ts with
           | .error e => .error e
           | .ok v0 =>
             match mapArrayItems xs (.pydict [(.pystr "typeSignature", v0)]) with
             | .error e => .error e
             | .ok ys => .ok (.pylist ys)
         else if pyvBeq rawTypeV (.pystr "row") then
           match pySubscript ts "arguments" with
           | .error e => .error e
           | .ok args =>
             match pyIterate args with
             | .error e => .error e
             | .ok argList =>
               match mapRowItems xs argList with
               | .error e => .error e
               | .ok ys => .ok (.pytuple ys)
         else .ok (.pylist xs))
  | .pydict kvs =>
    match typeSigAndRaw data_type with
    | .error e => .error e
    | .ok (ts, rawTypeV) =>
      catchValueError (.pydict kvs) rawTypeV
        (match mapKVTypes ts with
         | .error e => .error e
         | .ok (kt, vt) =>
           match mapDictItems kvs
               (.pydict [(.pystr "typeSignature", kt)])
               (.pydict [(.pystr "typeSignature", vt)]) with
           | .error e => .error e
           | .ok ps => .ok (.pydict (buildPyDict ps)))
  | v =>
    match typeSigAndRaw data_type with
    | .error e => .error e
    | .ok (_, rawTypeV) =>
      catchValueError v rawTypeV (scalarConvert v rawTypeV)
termination_by sizeOf value

/-- The array-branch list comprehension
`[map_to_python_type((array_item, raw_type)) for array_item in value]`. -/
def mapArrayItems (xs : List PyV) (dt : PyV) : Except PyExn (List PyV) :=
  match xs with
  | [] => .ok []
  | x :: rest =>
    match map_to_python_type x dt with
    | .error e => .error e
    | .ok y =>
      match mapArrayItems rest dt with
      | .error e => .error e
      | .ok ys => .ok (y :: ys)
termination_by sizeOf xs

/-- The row-branch generator over `zip(value, raw_types)`, where `raw_types`
lazily maps each argument to `arg["value"]`; `zip` truncates to the shorter
sequence. -/
def mapRowItems (xs argList : List PyV) : Except PyExn (List PyV) :=
  match xs, argList with
  | [], _ => .ok []
  | _ :: _, [] => .ok []
  | x :: rest, a :: moreArgs =>
    match pySubscript a "value" with
    | .error e => .error e
    | .ok rt =>
      match map_to_python_type x rt with
      | .error e => .error e
      | .ok y =>
        match mapRowItems rest moreArgs with
        | .error e => .error e
        | .ok ys => .ok (y :: ys)
termination_by sizeOf xs

/-- The map-branch dict comprehension: decode each key against the key type
and each value against the value type. -/
def mapDictItems (kvs : List (PyV × PyV)) (kdt vdt : PyV) :
    Except PyExn (List (PyV × PyV)) :=
  match kvs with
  | [] => .ok []
  | (k, v) :: rest =>
    match map_to_python_type k kdt with
    | .error e => .error e
    | .ok k2 =>
      match map_to_python_type v vdt with
      | .error e => .error e
      | .ok v2 =>
        match mapDictItems rest kdt vdt with
        | .error e => .error e
        | .ok ps => .ok ((k2, v2) :: ps)
termination_by sizeOf kvs
end

/-! ### Fixtures and helper predicates used by the claim theorems -/

/-- A type descriptor `{"typeSignature": {"rawType": rawType, "arguments":
[]}}` as received from the engine for a scalar column. -/
def mkTypeSig (rawType : String) : PyV :=
  .pydict [(.pystr "rawType", .pystr rawType), (.pystr "arguments", .pylist [])]

def mkDataType (rawType : String) : PyV :=
  .pydict [(.pystr "typeSignature", mkTypeSig rawType)]

/-- Values dispatched to the scalar `elif` chain: neither `None` (returned
early) nor a list or dict. -/
def isScalarValue : PyV → Bool
  | .pynone => false
  | .pylist _ => false
  | .pydict _ => false
  | _ => true

/-- A concrete redirect resolver standing in for
`prestodb.redirect.GatewayRedirectHandler().handle`. -/
def redirectResolve (location : String) : String := location

/-- A 302 response to the initial statement POST, carrying a Location
header. -/
def redirect302 : HttpResponse :=
  { status := 302, headers := [("Location", "http://gateway.example/v1/statement")] }

def cfgW : ReqConfig := { http_scheme := "http", host := "coordinator", port := 8080 }

/-- A running query that has received its id and continuation URI. -/
def qRunningW : QState :=
  { query_id := some "20240101_000000_00001_abcde"
    finished := false
    cancelled := false
    sql := "select 1"
    next_uri := some "http://coordinator:8080/v1/statement/20240101_000000_00001_abcde/1" }

/-- A cancelled query that is still running (cancel was issued mid-sequence). -/
def qCancelledRunning : QState :=
  { query_id := some "q1"
    cancelled := true
    finished := false
    sql := "select 1"
    next_uri := some "http://coordinator:8080/v1/statement/q1/1" }

/-- A cancelled, finished query (terminal state, continuation URI gone). -/
def qTermW : QState :=
  { query_id := some "q1", cancelled := true, finished := true, next_uri := none }

/-- A constant server: every request is answered by `s`. -/
def srvOk (s : PrestoStatus) : HttpReq → Except PyExn PrestoStatus :=
  fun _ => .ok s

def statusNext2 : PrestoStatus :=
  { id := "q1", stats := [("state", "RUNNING")],
    next_uri := some "http://coordinator:8080/v1/statement/q1/2", rows := [[1]] }

def statusWarn1 : PrestoStatus :=
  { id := "q1", stats := [], warnings := ["w1"],
    next_uri := some "http://coordinator:8080/v1/statement/q1/2" }

def statusWarn2 : PrestoStatus :=
  { id := "q1", stats := [], warnings := ["w2"], next_uri := none }

def statusDone : PrestoStatus := { id := "q1", stats := [], next_uri := none }

def statusMore : PrestoStatus :=
  { id := "q1", stats := [], next_uri := some "http://coordinator:8080/v1/statement/q1/2" }

/-- An attempt stream whose first attempt yields 503 and whose later attempts
yield 200. -/
def attempts503Then200 : Nat → AttemptOutcome :=
  fun i => if i = 0 then .response { status := 503 } else .response { status := 200 }

/-- C6 witness statuses. -/
def statusS1W : PrestoStatus :=
  { id := "qid1", stats := [("a", "1"), ("b", "x")],
    next_uri := some "http://coordinator:8080/v1/statement/qid1/1" }

def statusS2W : PrestoStatus :=
  { id := "qid1", stats := [("a", "2"), ("c", "y")], next_uri := none }

/-! ### Helper lemmas about the embedded operations -/

theorem fetchUpdate_warnings (q : QState) (s : PrestoStatus) :
    (fetchUpdate q s).warnings = q.warnings := by
  unfold fetchUpdate
  cases h1 : colsTruthy s.columns <;> cases h2 : s.next_uri.isNone <;>
    simp [h1, h2]

theorem executeUpdate_warnings (q : QState) (s : PrestoStatus) :
    (executeUpdate q s).warnings = s.warnings := by
  unfold executeUpdate
  cases h1 : colsTruthy s.columns <;> cases h2 : s.next_uri.isNone <;>
    simp [h1, h2]

theorem fetchUpdate_finished (q : QState) (s : PrestoStatus) :
    (fetchUpdate q s).finished = (s.next_uri.isNone || q.finished) := by
  unfold fetchUpdate
  cases h1 : colsTruthy s.columns <;> cases h2 : s.next_uri.isNone <;>
    simp [h1, h2]

theorem executeUpdate_finished (q : QState) (s : PrestoStatus) :
    (executeUpdate q s).finished = (s.next_uri.isNone || q.finished) := by
  unfold executeUpdate
  cases h1 : colsTruthy s.columns <;> cases h2 : s.next_uri.isNone <;>
    simp [h1, h2]

theorem fetchUpdate_stats (q : QState) (s : PrestoStatus) :
    (fetchUpdate q s).stats = dictUpdate q.stats s.stats := by
  unfold fetchUpdate
  cases h1 : colsTruthy s.columns <;> cases h2 : s.next_uri.isNone <;>
    simp [h1, h2]

theorem executeUpdate_stats (q : QState) (s : PrestoStatus) :
    (executeUpdate q s).stats =
      dictUpdate (dictUpdate q.stats [("queryId", s.id)]) s.stats := by
  unfold executeUpdate
  cases h1 : colsTruthy s.columns <;> cases h2 : s.next_uri.isNone <;>
    simp [h1, h2]

theorem fetchUpdate_next_uri (q : QState) (s : PrestoStatus) :
    (fetchUpdate q s).next_uri = s.next_uri := by
  unfold fetchUpdate
  cases h1 : colsTruthy s.columns <;> cases h2 : s.next_uri.isNone <;>
    simp [h1, h2]

theorem executeUpdate_result (q : QState) (s : PrestoStatus) :
    (executeUpdate q s).result = s.rows := by
  unfold executeUpdate
  cases h1 : colsTruthy s.columns <;> cases h2 : s.next_uri.isNone <;>
    simp [h1, h2]

theorem optTruthy_isNone {x : Option String} (h : optTruthy x = true) :
    x.isNone = false := by
  cases x with
  | none => simp [optTruthy] at h
  | some u => rfl

theorem optTruthy_some {x : Option String} (h : optTruthy x = true) :
    ∃ u, x = some u := by
  cases x with
  | none => simp [optTruthy] at h
  | some u => exact ⟨u, rfl⟩

theorem execute_ok (s : PrestoStatus) (q : QState) (hc : q.cancelled = false) :
    execute (fun _ => .ok s) q = .ok (executeUpdate q s, (executeUpdate q s).result) := by
  unfold execute
  rw [hc]
  rfl

theorem fetch_ok (s : PrestoStatus) (q : QState) (u : String)
    (hu : q.next_uri = some u) :
    fetch (fun _ => .ok s) q = .ok (fetchUpdate q s, s.rows) := by
  unfold fetch
  rw [hu]
  rfl

theorem executeUpdate_next_uri (q : QState) (s : PrestoStatus) :
    (executeUpdate q s).next_uri = s.next_uri := by
  unfold executeUpdate
  cases h1 : colsTruthy s.columns <;> cases h2 : s.next_uri.isNone <;>
    simp [h1, h2]

theorem runFetches_legal {rest : List PrestoStatus} (hlegal : LegalRun rest) :
    ∀ q : QState, optTruthy q.next_uri = true → q.finished = false →
      runFetches q rest = .ok (rest.foldl fetchUpdate q) := by
  induction hlegal with
  | last s hs =>
      intro q hu hf
      obtain ⟨u, huu⟩ := optTruthy_some hu
      unfold runFetches
      simp only [is_finished, hf, Bool.false_eq_true, if_false]
      rw [fetch_ok s q u huu]
      rfl
  | cons s rest2 ht hrest ih =>
      intro q hu hf
      obtain ⟨u, huu⟩ := optTruthy_some hu
      unfold runFetches
      simp only [is_finished, hf, Bool.false_eq_true, if_false]
      rw [fetch_ok s q u huu]
      show runFetches (fetchUpdate q s) rest2 = _
      rw [ih (fetchUpdate q s) (by rw [fetchUpdate_next_uri]; exact ht)
        (by rw [fetchUpdate_finished, optTruthy_isNone ht, hf]; rfl)]
      rfl

theorem foldl_fetchUpdate_stats (rest : List PrestoStatus) :
    ∀ q : QState, (rest.foldl fetchUpdate q).stats =
      (rest.map PrestoStatus.stats).foldl (fun d m => dictUpdate d m) q.stats := by
  induction rest with
  | nil => intro q; rfl
  | cons s rest ih =>
      intro q
      simp only [List.foldl_cons, List.map_cons, ih, fetchUpdate_stats]

theorem strContains_middle (x y z : String) :
    strContains (x ++ y ++ z) y = true := by
  unfold strContains
  rw [List.any_eq_true]
  refine ⟨y.toList ++ z.toList, ?_, ?_⟩
  · rw [List.mem_tails]
    have hdata : (x ++ y ++ z).toList = x.toList ++ (y.toList ++ z.toList) := by
      show (x ++ y ++ z).data = x.data ++ (y.data ++ z.data)
      rw [String.data_append, String.data_append, List.append_assoc]
    rw [hdata]
    exact List.suffix_append _ _
  · rw [List.isPrefixOf_iff_prefix]
    exact List.prefix_append _ _

theorem retryLoop_spec (attempts : Nat → AttemptOutcome) :
    ∀ remaining i : Nat, 1 ≤ remaining →
      ∃ t, t < remaining ∧ retryLoop attempts i remaining = attempts (i + t) ∧
        ∀ j, j < t → shouldRetryOutcome (attempts (i + j)) = true := by
  intro remaining
  induction remaining with
  | zero => intro i h; omega
  | succ n ih =>
      intro i _
      cases n with
      | zero =>
          refine ⟨0, by omega, ?_, ?_⟩
          · show attempts i = attempts (i + 0)
            rw [Nat.add_zero]
          · intro j hj; omega
      | succ n2 =>
          by_cases hr : shouldRetryOutcome (attempts i) = true
          · obtain ⟨t, ht, heq, hall⟩ := ih (i + 1) (by omega)
            refine ⟨t + 1, by omega, ?_, ?_⟩
            · show (if shouldRetryOutcome (attempts i) = true then
                  retryLoop attempts (i + 1) (n2 + 1) else attempts i) = _
              rw [if_pos hr, heq]
              have harith : i + 1 + t = i + (t + 1) := by omega
              rw [harith]
            · intro j hj
              cases j with
              | zero => simpa using hr
              | succ j2 =>
                  have harith : i + (j2 + 1) = i + 1 + j2 := by omega
                  rw [harith]
                  exact hall j2 (by omega)
          · refine ⟨0, by omega, ?_, ?_⟩
            · show (if shouldRetryOutcome (attempts i) = true then
                  retryLoop attempts (i + 1) (n2 + 1) else attempts i) = _
              rw [if_neg hr, Nat.add_zero]
            · intro j hj; omega

theorem execute_cancelled (srv : HttpReq → Except PyExn PrestoStatus)
    (q : QState) (hc : q.cancelled = true) :
    execute srv q = .error (.prestoUserError "Query has been cancelled") := by
  unfold execute
  rw [hc]
  rfl

theorem fetch_none_uri (srv : HttpReq → Except PyExn PrestoStatus)
    (q : QState) (hu : q.next_uri = none) :
    fetch srv q = .error .invalidUrl := by
  unfold fetch
  rw [hu]

theorem fetch_ok_srv (srv : HttpReq → Except PyExn PrestoStatus) (q : QState)
    (u : String) (s : PrestoStatus) (hu : q.next_uri = some u)
    (hs : srv (.get u) = .ok s) :
    fetch srv q = .ok (fetchUpdate q s, s.rows) := by
  unfold fetch
  rw [hu]
  show (do
    let status ← srv (.get u)
    Except.ok (fetchUpdate q status, status.rows)) = _
  rw [hs]
  rfl

theorem fetch_error_srv (srv : HttpReq → Except PyExn PrestoStatus)
    (q : QState) (u : String) (e : PyExn) (hu : q.next_uri = some u)
    (hs : srv (.get u) = .error e) :
    fetch srv q = .error e := by
  unfold fetch
  rw [hu]
  show (do
    let status ← srv (.get u)
    Except.ok (fetchUpdate q status, status.rows)) = _
  rw [hs]
  rfl

/-! ### Claim theorems -/

/-- C1 (code evaluated at the failing input): with a configured redirect
handler, a 302 response with a Location header to the initial statement POST
does **not** lead to an awaited reissued POST returning the first
non-redirect response.  The reissued `self._post(url, ...)` on
presto_request.py line 326 is not awaited, so the loop variable becomes the
un-awaited call object and the next loop-condition evaluation of
`is_redirect(http_response)` raises `AttributeError`; `post` never returns a
response once a redirect is seen. -/
theorem c1_redirect_post_raises_instead_of_following :
    is_redirect redirect302 = true ∧
    headerGet redirect302.headers "Location" =
      some "http://gateway.example/v1/statement" ∧
    post (some redirectResolve) 5 redirect302 = .error .attributeError :=
  ⟨rfl, rfl, rfl⟩

/-- C2 (code evaluated at the failing input): `cancel()` on a running query
with an id issues exactly one DELETE, confirms on 204 — but the URI it
DELETEs is `{scheme}://{host}:{port}/v1/presto/{queryId}` (presto_query.py
line 100), not the `/v1/query/{queryId}` cancellation endpoint the spec
fixes. -/
theorem c2_cancel_deletes_presto_path_not_query_path :
    (cancel cfgW { status := 204 } qRunningW).2.1 =
      [CancelEvent.setCancelled,
       CancelEvent.deleteIssued
         "http://coordinator:8080/v1/presto/20240101_000000_00001_abcde"] ∧
    (cancel cfgW { status := 204 } qRunningW).1 = { qRunningW with cancelled := true } ∧
    (cancel cfgW { status := 204 } qRunningW).2.2 = .ok () ∧
    CancelEvent.deleteIssued
        "http://coordinator:8080/v1/query/20240101_000000_00001_abcde" ∉
      (cancel cfgW { status := 204 } qRunningW).2.1 := by
  refine ⟨rfl, rfl, rfl, ?_⟩
  decide

/-- C3 counterexample: `fetch()` invoked after `cancel()` has been issued
(cancelled query, still running) does **not** fail fast — it silently
proceeds, issuing the GET and returning rows. -/
theorem c3_counterexample_fetch_after_cancel_proceeds :
    qCancelledRunning.cancelled = true ∧
    fetch (srvOk statusNext2) qCancelledRunning =
      .ok (fetchUpdate qCancelledRunning statusNext2, [[1]]) :=
  ⟨rfl, rfl⟩

/-- C3 amended: only `execute()` on a cancelled query fails fast with a
`PrestoUserError`; `fetch()` after `finished` fails only because the `None`
continuation URI is rejected at the HTTP layer (no misuse check exists), and
`fetch()` after `cancel()` on a still-running query, like a repeated
`execute()`, silently proceeds. -/
theorem c3_amended_fail_fast_scope (srv : HttpReq → Except PyExn PrestoStatus)
    (q : QState) :
    (q.cancelled = true →
      execute srv q = .error (.prestoUserError "Query has been cancelled")) ∧
    (q.next_uri = none → fetch srv q = .error .invalidUrl) :=
  ⟨execute_cancelled srv q, fetch_none_uri srv q⟩

/-- C3 amended, witnessed at the cancelled-and-finished state `qTermW`. -/
theorem c3_amended_witness :
    execute (srvOk statusNext2) qTermW =
      .error (.prestoUserError "Query has been cancelled") ∧
    fetch (srvOk statusNext2) qTermW = .error .invalidUrl :=
  ⟨(c3_amended_fail_fast_scope (srvOk statusNext2) qTermW).1 rfl,
   (c3_amended_fail_fast_scope (srvOk statusNext2) qTermW).2 rfl⟩

/-- C4 counterexample: after an `execute` whose Status carried warnings
`["w1"]`, a `fetch` whose Status carries the warnings batch `["w2"]` leaves
the query's warnings at `["w1"]` — `fetch` never touches `self._warnings`
(presto_query.py lines 80-91 contain no warnings assignment). -/
theorem c4_counterexample_fetch_discards_new_warnings :
    statusWarn2.warnings = ["w2"] ∧
    Except.map (fun p => p.1.warnings)
        ((execute (srvOk statusWarn1) (initialQuery "select 1")).bind
          (fun p => fetch (srvOk statusWarn2) p.1)) = .ok ["w1"] :=
  ⟨rfl, rfl⟩

/-- C4 amended: `fetch()` leaves the warnings field unchanged whatever batch
its Status carries; only `execute()` replaces warnings, with the batch of the
Status it processed. -/
theorem c4_amended_warnings_replacement
    (srv : HttpReq → Except PyExn PrestoStatus) (q : QState) :
    (∀ p, fetch srv q = .ok p → p.1.warnings = q.warnings) ∧
    (∀ s : PrestoStatus, (executeUpdate q s).warnings = s.warnings) := by
  refine ⟨?_, executeUpdate_warnings q⟩
  intro p h
  cases hnu : q.next_uri with
  | none =>
      rw [fetch_none_uri srv q hnu] at h
      exact absurd h (by simp)
  | some u =>
      cases hs : srv (.get u) with
      | error e =>
          rw [fetch_error_srv srv q u e hnu hs] at h
          exact absurd h (by simp)
      | ok s =>
          rw [fetch_ok_srv srv q u s hnu hs] at h
          cases h
          exact fetchUpdate_warnings q s

/-- C4 amended, witnessed: a concrete `fetch` preserves the warnings of
`qRunningW` (empty), and a concrete `executeUpdate` adopts the Status
batch. -/
theorem c4_amended_witness :
    fetch (srvOk statusWarn2) qRunningW =
      .ok (fetchUpdate qRunningW statusWarn2, statusWarn2.rows) ∧
    (fetchUpdate qRunningW statusWarn2).warnings = qRunningW.warnings ∧
    (executeUpdate qRunningW statusWarn2).warnings = ["w2"] :=
  ⟨rfl,
   (c4_amended_warnings_replacement (srvOk statusWarn2) qRunningW).1
     (fetchUpdate qRunningW statusWarn2, statusWarn2.rows) rfl,
   (c4_amended_warnings_replacement (srvOk statusWarn2) qRunningW).2 statusWarn2⟩

/-- C5 counterexample: execute a query to completion (Status without next
URI, `finished` becomes true), then call `execute()` again with a Status that
*does* carry a next URI: `is_finished()` stays true even though the Status
just processed carried a next URI — the flag is never reset, so "true exactly
when the Status just processed carried no next URI" fails. -/
theorem c5_counterexample_finished_not_iff :
    statusMore.next_uri =
      some "http://coordinator:8080/v1/statement/q1/2" ∧
    Except.map (fun p => is_finished p.1)
        ((execute (srvOk statusDone) (initialQuery "select 1")).bind
          (fun p => execute (srvOk statusMore) p.1)) = .ok true :=
  ⟨rfl, rfl⟩

/-- C5 amended: after an `execute()` or `fetch()` call, `finished` equals
"the Status just processed carried no next URI, **or** the query was already
finished"; in particular it is set exactly by a Status without next URI and
never reverts to false. -/
theorem c5_amended_finished_monotone (q : QState) (s : PrestoStatus) :
    (executeUpdate q s).finished = (s.next_uri.isNone || q.finished) ∧
    (fetchUpdate q s).finished = (s.next_uri.isNone || q.finished) ∧
    (q.cancelled = false →
      execute (fun _ => .ok s) q =
        .ok (executeUpdate q s, (executeUpdate q s).result)) ∧
    (∀ u, q.next_uri = some u →
      fetch (fun _ => .ok s) q = .ok (fetchUpdate q s, s.rows)) :=
  ⟨executeUpdate_finished q s, fetchUpdate_finished q s,
   fun hc => execute_ok s q hc, fun u hu => fetch_ok s q u hu⟩

/-- C5 amended, witnessed at a running query processing a final Status. -/
theorem c5_amended_witness :
    execute (fun _ => .ok statusDone) qRunningW =
      .ok (executeUpdate qRunningW statusDone,
        (executeUpdate qRunningW statusDone).result) ∧
    fetch (fun _ => .ok statusDone) qRunningW =
      .ok (fetchUpdate qRunningW statusDone, statusDone.rows) ∧
    (executeUpdate qRunningW statusDone).finished = true :=
  ⟨(c5_amended_finished_monotone qRunningW statusDone).2.2.1 rfl,
   (c5_amended_finished_monotone qRunningW statusDone).2.2.2 _ rfl,
   ((c5_amended_finished_monotone qRunningW statusDone).1).trans rfl⟩

/-- C6: for one `execute` followed by the fetch loop over a legal scripted
reply sequence, the accumulated statistics equal the additive union of all
received stats maps — preceded by the `{"queryId": id}` entry inserted by
`execute` — with values from later responses overwriting earlier ones on key
collision. -/
theorem c6_stats_additive_union (sql : String) (s1 : PrestoStatus)
    (rest : List PrestoStatus) (hlegal : LegalRun (s1 :: rest)) :
    ∃ qf, runQuery sql s1 rest = .ok qf ∧
      ∀ k, dictGet qf.stats k =
        unionLaterWins
          ([("queryId", s1.id)] :: (s1 :: rest).map PrestoStatus.stats) k := by
  have hrun : runQuery sql s1 rest =
      runFetches (executeUpdate (initialQuery sql) s1) rest := by
    unfold runQuery
    rw [execute_ok s1 (initialQuery sql) rfl]
    rfl
  cases hlegal with
  | last s2 hs =>
      refine ⟨executeUpdate (initialQuery sql) s1, ?_, ?_⟩
      · rw [hrun]; rfl
      · intro k
        rw [executeUpdate_stats]
        have hfold :
            dictUpdate (dictUpdate (initialQuery sql).stats
                [("queryId", s1.id)]) s1.stats =
              ([[("queryId", s1.id)], s1.stats]).foldl
                (fun d m => dictUpdate d m) [] := rfl
        rw [hfold, dictGet_foldl_update]
        rw [show dictGet ([] : List (String × String)) k = none from rfl,
          optOr_none_right]
        rfl
  | cons s2 r2 ht hrest =>
      have hu : optTruthy (executeUpdate (initialQuery sql) s1).next_uri =
          true := by
        rw [executeUpdate_next_uri]; exact ht
      have hf : (executeUpdate (initialQuery sql) s1).finished = false := by
        rw [executeUpdate_finished, optTruthy_isNone ht]; rfl
      refine ⟨rest.foldl fetchUpdate (executeUpdate (initialQuery sql) s1),
        ?_, ?_⟩
      · rw [hrun, runFetches_legal hrest _ hu hf]
      · intro k
        rw [foldl_fetchUpdate_stats, executeUpdate_stats]
        have hfold :
            (rest.map PrestoStatus.stats).foldl (fun d m => dictUpdate d m)
                (dictUpdate (dictUpdate (initialQuery sql).stats
                  [("queryId", s1.id)]) s1.stats) =
              (([("queryId", s1.id)] :: s1.stats ::
                  rest.map PrestoStatus.stats)).foldl
                (fun d m => dictUpdate d m) [] := rfl
        rw [hfold, dictGet_foldl_update]
        rw [show dictGet ([] : List (String × String)) k = none from rfl,
          optOr_none_right]
        rfl

/-- C6, witnessed on a concrete two-Status run with a key collision on
`"a"` (`"a" ↦ "1"` then `"a" ↦ "2"`, later wins). -/
theorem c6_witness :
    LegalRun [statusS1W, statusS2W] ∧
    ∃ qf, runQuery "select 1" statusS1W [statusS2W] = .ok qf ∧
      ∀ k, dictGet qf.stats k =
        unionLaterWins ([("queryId", statusS1W.id)] ::
          ([statusS1W, statusS2W]).map PrestoStatus.stats) k :=
  ⟨LegalRun.cons _ _ rfl (LegalRun.last _ rfl),
   c6_stats_additive_union "select 1" statusS1W [statusS2W]
     (LegalRun.cons _ _ rfl (LegalRun.last _ rfl))⟩

/-- C7: with `max_attempts = 1` the transport call is the plain session
method — one attempt, whose outcome (including a transient failure)
propagates directly; for any configured `max_attempts = m ≥ 1`, an outcome
that is neither a transient transport exception nor a 503 response is
returned without retry, and in general the returned outcome is that of some
attempt `n < m` all of whose predecessors were retried because they raised a
listed transient exception or returned status 503. -/
theorem c7_retry_policy (attempts : Nat → AttemptOutcome) (m : Nat)
    (hm : 1 ≤ m) :
    set_max_attempts 1 attempts = attempts 0 ∧
    (shouldRetryOutcome (attempts 0) = false →
      set_max_attempts m attempts = attempts 0) ∧
    ∃ n, n < m ∧ set_max_attempts m attempts = attempts n ∧
      ∀ j, j < n → shouldRetryOutcome (attempts j) = true := by
  refine ⟨rfl, ?_, ?_⟩
  · intro h0
    by_cases hm1 : m = 1
    · subst hm1; rfl
    · obtain ⟨k, rfl⟩ : ∃ k, m = k + 2 := ⟨m - 2, by omega⟩
      simp only [set_max_attempts, if_neg hm1]
      show (if shouldRetryOutcome (attempts 0) = true then
          retryLoop attempts (0 + 1) (k + 1) else attempts 0) = attempts 0
      rw [h0]
      simp
  · by_cases hm1 : m = 1
    · subst hm1
      exact ⟨0, by omega, rfl, fun j hj => absurd hj (by omega)⟩
    · simp only [set_max_attempts, if_neg hm1]
      obtain ⟨t, ht, heq, hall⟩ := retryLoop_spec attempts m 0 hm
      refine ⟨t, ht, ?_, ?_⟩
      · rw [heq, Nat.zero_add]
      · intro j hj
        have := hall j hj
        rwa [Nat.zero_add] at this

/-- C7, witnessed with `m = 2` on an attempt stream whose first attempt
returns 503 and whose second returns 200: the 503 is retried once and the
200 response is returned; with `max_attempts = 1` the 503 is returned
directly. -/
theorem c7_retry_policy_witness :
    set_max_attempts 1 attempts503Then200 = attempts503Then200 0 ∧
    (shouldRetryOutcome (attempts503Then200 0) = false →
      set_max_attempts 2 attempts503Then200 = attempts503Then200 0) ∧
    ∃ n, n < 2 ∧ set_max_attempts 2 attempts503Then200 = attempts503Then200 n ∧
      ∀ j, j < n → shouldRetryOutcome (attempts503Then200 j) = true :=
  c7_retry_policy attempts503Then200 2 (by decide)

/-- C8 counterexample: the string `"foo"` cannot be parsed as a double, yet
the decoder returns it unchanged (main.py line 145 `return value`) — no
decode error is raised, the unparseable value is silently passed through. -/
theorem c8_counterexample_bad_double_passed_through :
    map_to_python_type (.pystr "foo") (mkDataType "double") =
      .ok (.pystr "foo") := by
  simp only [map_to_python_type]
  rfl

/-- C8 amended: when the conversion of a scalar value raises a `ValueError`
(unparseable date/time/timestamp strings), the decoder raises a `TypeError`
whose message names both the offending raw value and the declared raw type;
mismatches that raise no `ValueError` are passed through unchanged (e.g. a
non-numeric string declared `double`) or surface as other exception kinds
(`AssertionError` for a malformed `time with time zone`,
`decimal.InvalidOperation` for a malformed decimal). -/
theorem c8_amended_valueerror_reraised_with_value_and_type (v : PyV)
    (rt m : String) (hscalar : isScalarValue v = true)
    (hval : scalarConvert v (.pystr rt) = .error (.valueError m)) :
    map_to_python_type v (mkDataType rt) =
      .error (.typeError (errMsg v (.pystr rt))) ∧
    strContains (errMsg v (.pystr rt)) (pyStr v) = true ∧
    strContains (errMsg v (.pystr rt)) rt = true := by
  have hts : typeSigAndRaw (mkDataType rt) = .ok (mkTypeSig rt, .pystr rt) :=
    rfl
  refine ⟨?_, ?_, ?_⟩
  · cases v
    case pynone => simp [isScalarValue] at hscalar
    case pylist => simp [isScalarValue] at hscalar
    case pydict => simp [isScalarValue] at hscalar
    all_goals simp only [map_to_python_type, hts]
    all_goals rw [hval]
    all_goals rfl
  · have hshape : errMsg v (.pystr rt) =
        "Could not convert \x27" ++ pyStr v ++
          (("\x27 into the associated python type for \x27" ++
            pyStr (.pystr rt)) ++ "\x27") := by
      simp [errMsg, String.append_assoc]
    rw [hshape]
    exact strContains_middle _ _ _
  · have hshape : errMsg v (.pystr rt) =
        ("Could not convert \x27" ++ pyStr v ++
          "\x27 into the associated python type for \x27") ++ rt ++ "\x27" := by
      simp only [errMsg, pyStr]
    rw [hshape]
    exact strContains_middle _ _ _

/-- C8 amended, witnessed: decoding `"xx"` as a `date` raises the
`TypeError` whose message contains both `xx` and `date`. -/
theorem c8_amended_witness :
    isScalarValue (.pystr "xx") = true ∧
    scalarConvert (.pystr "xx") (.pystr "date") =
      .error (.valueError "time data xx does not match format %Y-%m-%d") ∧
    (map_to_python_type (.pystr "xx") (mkDataType "date") =
        .error (.typeError (errMsg (.pystr "xx") (.pystr "date"))) ∧
     strContains (errMsg (.pystr "xx") (.pystr "date"))
        (pyStr (.pystr "xx")) = true ∧
     strContains (errMsg (.pystr "xx") (.pystr "date")) "date" = true) :=
  ⟨rfl, rfl,
   c8_amended_valueerror_reraised_with_value_and_type (.pystr "xx") "date"
     "time data xx does not match format %Y-%m-%d" rfl rfl⟩

/-- C9: decoding a null value yields null for every declared type signature —
the `value is None` check precedes every use of the type descriptor, so even
a malformed descriptor cannot change the result. -/
theorem c9_null_decodes_to_null (t : PyV) :
    map_to_python_type .pynone t = .ok .pynone := by
  simp only [map_to_python_type]

/-- C10: on a running query with an id, `cancel()` sets `cancelled = true`
(line 99) *before* issuing the DELETE (line 102) — the event trace is
`[setCancelled, deleteIssued url]` — and when the DELETE response status is
not 204 the raised error does not roll the flag back: the returned state
still has `cancelled = true`. -/
theorem c10_cancelled_set_before_delete_and_kept_on_error (cfg : ReqConfig)
    (r : HttpResponse) (q : QState) (qid : String)
    (hq : q.query_id = some qid) (hf : q.finished = false)
    (hr : r.status ≠ 204) :
    cancel cfg r q =
      ({ q with cancelled := true },
       [CancelEvent.setCancelled,
        CancelEvent.deleteIssued (get_url cfg ("/v1/presto/" ++ qid))],
       .error (raise_response_error r)) := by
  unfold cancel
  rw [hq]
  simp [is_finished, hf, hr]

/-- C10, witnessed: a 500 DELETE response leaves `qRunningW` marked
cancelled while the error is raised, the DELETE having been issued after the
flag was set. -/
theorem c10_witness :
    cancel cfgW { status := 500, content := "oops" } qRunningW =
      ({ qRunningW with cancelled := true },
       [CancelEvent.setCancelled,
        CancelEvent.deleteIssued
          (get_url cfgW ("/v1/presto/" ++ "20240101_000000_00001_abcde"))],
       .error (raise_response_error { status := 500, content := "oops" })) :=
  c10_cancelled_set_before_delete_and_kept_on_error cfgW
    { status := 500, content := "oops" } qRunningW
    "20240101_000000_00001_abcde" rfl rfl (by decide)
